import Mathlib

/-!
Shallow embedding of the polymer-property prediction pipeline:
`packages/data-platform/backend/app/services/chemistry_service.py`
(`ChemistryService`) and `packages/ai-services/src/predictor.py`
(`PolymerPredictor`).

External collaborators are modelled as parameters:
* The RDKit call `Chem.MolFromSmiles` is an abstract `parse : String → Option Mol`
  (exceptions and parse failures both yield `none`); the parsed molecule
  exposes exactly the data the source reads from it (atom symbol, degree,
  aromaticity, hydrogen count, bond kinds, SSSR ring count, molecular
  weight).
* A fitted sklearn scaler is an opaque `Scaler : List ℝ → Option (List ℝ)`
  and a fitted regressor an opaque `Model : List ℝ → Option ℝ`; a `none`
  result stands for a raised exception (e.g. dimension mismatch), which the
  source catches per property.
Machine floats are modelled as real numbers.
-/

/-- Data the source reads from an RDKit atom: `GetSymbol`, `GetDegree`,
`GetIsAromatic`, `GetTotalNumHs`. -/
structure Atom where
  symbol : String
  degree : ℕ
  isAromatic : Bool
  totalNumHs : ℕ
  deriving DecidableEq

/-- Bond kinds distinguished by the source (`bond.GetBondType() == SINGLE`). -/
inductive BondKind where
  | single
  | double
  | triple
  | aromatic
  deriving DecidableEq

/-- Parsed molecular graph as consumed by `extract_chemistry_features`:
atoms, bond kinds, the SSSR ring count (`len(Chem.GetSSSR(mol))`) and the
molecular-weight descriptor (`Descriptors.MolWt`), the latter two being
opaque outputs of the external chemistry library. -/
structure Mol where
  atoms : List Atom
  bonds : List BondKind
  sssrCount : ℕ
  molWt : ℚ

/-- Number of occurrences of character `c` in `s` (Python `s.count(c)` for a
single-character needle). -/
def countChar (c : Char) (s : String) : ℕ :=
  s.toList.count c

/-- The 10 simple features of `ChemistryService.extract_simple_features`. -/
structure SimpleFeatures where
  smiles_length : ℕ
  carbon_count : ℕ
  nitrogen_count : ℕ
  oxygen_count : ℕ
  sulfur_count : ℕ
  fluorine_count : ℕ
  ring_count : ℕ
  double_bond_count : ℕ
  triple_bond_count : ℕ
  branch_count : ℕ
  deriving DecidableEq

/-- `ChemistryService.extract_simple_features`: direct substring counting on
the raw SMILES text (the function never parses or canonicalizes). -/
def extract_simple_features (smiles : String) : SimpleFeatures :=
  { smiles_length := smiles.length
    carbon_count := countChar 'C' smiles
    nitrogen_count := countChar 'N' smiles
    oxygen_count := countChar 'O' smiles
    sulfur_count := countChar 'S' smiles
    fluorine_count := countChar 'F' smiles
    ring_count := countChar '1' smiles + countChar '2' smiles
    double_bond_count := countChar '=' smiles
    triple_bond_count := countChar '#' smiles
    branch_count := countChar '(' smiles }

/-- The 11 chemistry features of `ChemistryService.extract_chemistry_features`.
The source dict key for the branching quotient is rendered as the field
`branching_frac`. -/
structure ChemFeatures where
  num_side_chains : ℕ
  backbone_carbons : ℤ
  branching_frac : ℚ
  aromatic_count : ℕ
  h_bond_donors : ℕ
  h_bond_acceptors : ℕ
  num_rings : ℕ
  single_bonds : ℕ
  halogen_count : ℕ
  heteroatom_count : ℕ
  mw_estimate : ℚ
  deriving DecidableEq

/-- Body of `ChemistryService.extract_chemistry_features` after a successful
parse (the `try` block with `mol` in hand). Python `/` is true division, so
`branching_ratio` is the exact rational quotient. -/
def chemistry_features_of_mol (m : Mol) : ChemFeatures :=
  let single_bonds := m.bonds.countP (fun b => b = BondKind.single)
  let aromatic_atoms := m.atoms.countP (fun a => a.isAromatic)
  let h_bond_donors :=
    m.atoms.countP (fun a => (a.symbol = "O" ∨ a.symbol = "N") ∧ 0 < a.totalNumHs)
  let h_bond_acceptors := m.atoms.countP (fun a => a.symbol = "O" ∨ a.symbol = "N")
  let num_rings := m.sssrCount
  let halogen_count :=
    m.atoms.countP (fun a =>
      a.symbol = "F" ∨ a.symbol = "Cl" ∨ a.symbol = "Br" ∨ a.symbol = "I")
  let heteroatom_count :=
    m.atoms.countP (fun a => a.symbol = "N" ∨ a.symbol = "O" ∨ a.symbol = "S")
  let mw_estimate := m.molWt
  let num_carbons := m.atoms.countP (fun a => a.symbol = "C")
  let num_side_chains := m.atoms.countP (fun a => 2 < a.degree)
  let backbone_carbons : ℤ := (num_carbons : ℤ) - (num_side_chains : ℤ)
  { num_side_chains := num_side_chains
    backbone_carbons := backbone_carbons
    branching_frac := (num_side_chains : ℚ) / ((max backbone_carbons 1 : ℤ) : ℚ)
    aromatic_count := aromatic_atoms
    h_bond_donors := h_bond_donors
    h_bond_acceptors := h_bond_acceptors
    num_rings := num_rings
    single_bonds := single_bonds
    halogen_count := halogen_count
    heteroatom_count := heteroatom_count
    mw_estimate := mw_estimate }

/-- `ChemistryService.extract_chemistry_features`: parse, then compute; parse
failure or a library exception yields `None`. -/
def extract_chemistry_features (parse : String → Option Mol) (smiles : String) :
    Option ChemFeatures :=
  (parse smiles).map chemistry_features_of_mol

/-- `ChemistryService.extract_all_features`: merge of the simple and the
chemistry feature dicts (their key sets are disjoint, so the merge is a pair);
`None` exactly when the chemistry half fails. -/
def extract_all_features (parse : String → Option Mol) (smiles : String) :
    Option (SimpleFeatures × ChemFeatures) :=
  match extract_chemistry_features parse smiles with
  | none => none
  | some chem => some (extract_simple_features smiles, chem)

/-- `ChemistryService.validate_smiles`: reject the empty (falsy) string, else
valid iff RDKit parses it (exceptions yield `False` via the `except` arm,
already absorbed into `parse` returning `none`). -/
def validate_smiles (parse : String → Option Mol) (smiles : String) : Bool :=
  if smiles = "" then false
  else (parse smiles).isSome

/-- Lookup in a Python dict rendered as an association list (dict keys are
unique, so first match is the match). -/
def dictLookup (key : String) : List (String × α) → Option α
  | [] => none
  | (k, v) :: rest => if k = key then some v else dictLookup key rest

example : extract_simple_features "CCO" =
    { smiles_length := 3, carbon_count := 2, nitrogen_count := 0,
      oxygen_count := 1, sulfur_count := 0, fluorine_count := 0,
      ring_count := 0, double_bond_count := 0, triple_bond_count := 0,
      branch_count := 0 } := by decide

noncomputable section

/-- An opaque fitted feature scaler (`scaler.transform` on a single-row
matrix); `none` models a raised exception. -/
def Scaler : Type := List ℝ → Option (List ℝ)

/-- An opaque fitted regressor (`model.predict(xs)[0]`); `none` models a
raised exception. -/
def Model : Type := List ℝ → Option ℝ

/-- A per-property prediction entry: the dict with the two float fields
`value` and `confidence`. -/
structure PropPrediction where
  value : ℝ
  confidence : ℝ

/-- The fixed `feature_order` of `PolymerPredictor.extract_features`,
realized as the 21-element row vector handed to the scaler. The merged
feature dict always contains all 21 keys, so the `KeyError` arm of the
source is unreachable. -/
def featureVector (sf : SimpleFeatures) (cf : ChemFeatures) : List ℝ :=
  [(sf.smiles_length : ℝ), (sf.carbon_count : ℝ), (sf.nitrogen_count : ℝ),
   (sf.oxygen_count : ℝ), (sf.sulfur_count : ℝ), (sf.fluorine_count : ℝ),
   (sf.ring_count : ℝ), (sf.double_bond_count : ℝ), (sf.triple_bond_count : ℝ),
   (sf.branch_count : ℝ),
   (cf.num_side_chains : ℝ), (cf.backbone_carbons : ℝ), (cf.branching_frac : ℝ),
   (cf.aromatic_count : ℝ), (cf.h_bond_donors : ℝ), (cf.h_bond_acceptors : ℝ),
   (cf.num_rings : ℝ), (cf.single_bonds : ℝ), (cf.halogen_count : ℝ),
   (cf.heteroatom_count : ℝ), (cf.mw_estimate : ℝ)]

/-- `PolymerPredictor.extract_features`: all-feature extraction followed by
assembly in `feature_order`; `None` exactly when extraction fails. -/
def extract_features (parse : String → Option Mol) (smiles : String) :
    Option (List ℝ) :=
  match extract_all_features parse smiles with
  | none => none
  | some (sf, cf) => some (featureVector sf cf)

/-- In-memory state of a `PolymerPredictor` after `__init__`/`load_model`:
`models` (`None` when no model is loaded), `scalers`, `n_ensemble` and
`feature_names`, with the Python dicts rendered as association lists. -/
structure PredictorState where
  models : Option (List (String × List Model))
  scalers : List (String × Scaler)
  n_ensemble : ℕ
  feature_names : Option (List String)

/-- The field `self.property_names`, fixed in `__init__` — per the source
comment, these are the capitalized names used during training — and never
reassigned. -/
def propertyNames : List String := ["Tg", "FFV", "Tc", "Density", "Rg"]

/-- `PolymerPredictor._placeholder_predictions`: the all-zero,
zero-confidence result, keyed by the five lowercase names. -/
def placeholderPredictions : List (String × PropPrediction) :=
  [("tg", ⟨0, 0⟩), ("ffv", ⟨0, 0⟩), ("tc", ⟨0, 0⟩),
   ("density", ⟨0, 0⟩), ("rg", ⟨0, 0⟩)]

/-- The list comprehension
`[model.predict(features_scaled)[0] for model in ensemble_models]`:
any member raising (returning `none`) aborts the comprehension, and the
exception is caught by the per-property handler. -/
def evalModels (ms : List Model) (xs : List ℝ) : Option (List ℝ) :=
  match ms with
  | [] => some []
  | m :: rest =>
    match m xs, evalModels rest xs with
    | some y, some ys => some (y :: ys)
    | _, _ => none

/-- `np.mean` of a list of reals. -/
def listMean (xs : List ℝ) : ℝ :=
  xs.sum / xs.length

/-- `np.std` of a list of reals (population standard deviation, `ddof=0`). -/
def listStd (xs : List ℝ) : ℝ :=
  Real.sqrt ((xs.map (fun x => (x - listMean xs) ^ 2)).sum / xs.length)

/-- One iteration of the per-property loop of `PolymerPredictor.predict`
(lines 146-182): membership checks on `self.models`/`self.scalers`, scaling,
ensemble evaluation, mean aggregation, the Tg-only affine post-transform,
and the clamped dispersion confidence; every failure arm (missing entries or
a caught exception) yields the zero-value, zero-confidence entry for this
property alone. -/
def predictProp (scalers : List (String × Scaler))
    (models : List (String × List Model)) (features : List ℝ)
    (prop : String) : String × PropPrediction :=
  match dictLookup prop models, dictLookup prop scalers with
  | some ensemble_models, some scaler =>
    match scaler features with
    | none => (prop, ⟨0, 0⟩)
    | some features_scaled =>
      match evalModels ensemble_models features_scaled with
      | none => (prop, ⟨0, 0⟩)
      | some ensemble_preds =>
        let pred := listMean ensemble_preds
        let predT := if prop = "Tg" then (9 / 5) * pred + 45 else pred
        let confidence := 1 / (1 + listStd ensemble_preds)
        let confidenceC := min (max confidence 0) 1
        (prop, ⟨predT, confidenceC⟩)
  | _, _ => (prop, ⟨0, 0⟩)

/-- `PolymerPredictor.predict`: validate the SMILES, extract features, check
that a model is loaded, then run the per-property loop over
`self.property_names`; each guard failure short-circuits to the placeholder
result. -/
def predict (parse : String → Option Mol) (st : PredictorState)
    (smiles : String) : List (String × PropPrediction) :=
  if validate_smiles parse smiles then
    match extract_features parse smiles with
    | none => placeholderPredictions
    | some features =>
      match st.models with
      | none => placeholderPredictions
      | some models => propertyNames.map (predictProp st.scalers models features)
  else placeholderPredictions

/-- A value stored in the unpickled artifact dict: a bare fitted model, a
`models` map, a `scalers` map, an integer, or a feature-name list. -/
inductive PyVal where
  | pymodel (m : Model)
  | pymodels (ml : List (String × List Model))
  | pyscalers (sl : List (String × Scaler))
  | pynat (n : ℕ)
  | pynames (l : List String)

/-- The dict branch of `PolymerPredictor.load_model` (lines 64-74): for any
unpickled dict — which includes the legacy bare mapping from property name
to a single fitted model, since such a mapping satisfies the isinstance-dict
test — the code reads the keys `models`, `scalers`, `n_ensemble` and
`feature_names` with `dict.get`, defaulting to the empty dict, the empty
dict, 5 and `None` respectively when a key is absent. The else fallback
(binding the raw data to `self.models`) is reachable only for non-dict
pickles and is therefore not taken for either documented legacy shape. -/
def load_model (data : List (String × PyVal)) : PredictorState :=
  { models := some (match dictLookup "models" data with
      | some (PyVal.pymodels ml) => ml
      | _ => [])
    scalers := (match dictLookup "scalers" data with
      | some (PyVal.pyscalers sl) => sl
      | _ => [])
    n_ensemble := (match dictLookup "n_ensemble" data with
      | some (PyVal.pynat n) => n
      | _ => 5)
    feature_names := (match dictLookup "feature_names" data with
      | some (PyVal.pynames l) => some l
      | _ => none) }

/-- ASCII lowercasing of a string, used only to compare the two key casings
the predictor emits. -/
def lowerStr (s : String) : String :=
  String.mk (s.toList.map Char.toLower)


/-- A parse function that rejects every string (RDKit returning None). -/
def parseNone : String → Option Mol := fun _ => none

/-- A two-carbon molecule (ethane) as RDKit would expose it, used as a
concrete successfully-parsed input. -/
def molCC : Mol :=
  ⟨[⟨"C", 1, false, 3⟩, ⟨"C", 1, false, 3⟩], [BondKind.single], 0, 30⟩

/-- A parse function that accepts every string, returning `molCC`. -/
def parseOk : String → Option Mol := fun _ => some molCC

/-- The identity scaler (a well-behaved fitted transform). -/
def scalerId : Scaler := fun xs => some xs

/-- A scaler whose transform raises (e.g. malformed or dimension mismatch). -/
def scalerFail : Scaler := fun _ => none

/-- A fitted regressor that outputs the constant `y`. -/
def modelConst (y : ℝ) : Model := fun _ => some y

/-- A loaded models dict: a one-member ensemble outputting 10 for each of
the five capitalized property names. -/
def allModels : List (String × List Model) :=
  [("Tg", [modelConst 10]), ("FFV", [modelConst 10]), ("Tc", [modelConst 10]),
   ("Density", [modelConst 10]), ("Rg", [modelConst 10])]

/-- A scalers dict holding the identity scaler for each capitalized
property name. -/
def allScalers : List (String × Scaler) :=
  [("Tg", scalerId), ("FFV", scalerId), ("Tc", scalerId),
   ("Density", scalerId), ("Rg", scalerId)]

/-- Predictor state with no model loaded (`self.models is None`). -/
def stUnloaded : PredictorState := ⟨none, [], 5, none⟩

/-- Predictor state with a full artifact loaded. -/
def stLoaded : PredictorState := ⟨some allModels, allScalers, 5, none⟩

/-- A three-member ensemble outputting 10, 12 and 11. -/
def ensembleFFV : List Model := [modelConst 10, modelConst 12, modelConst 11]

/-- Models dict giving the FFV property the ensemble `ensembleFFV`. -/
def modelsFFV : List (String × List Model) := [("FFV", ensembleFFV)]

/-- Scalers dict giving the FFV property the identity scaler. -/
def scalersFFV : List (String × Scaler) := [("FFV", scalerId)]

/-- Scalers dict in which the Tg scaler raises but the Tc scaler works. -/
def scalersFailTg : List (String × Scaler) := [("Tg", scalerFail), ("Tc", scalerId)]

/-- Models dict holding one-member ensembles for Tg and Tc. -/
def modelsTgTc : List (String × List Model) :=
  [("Tg", [modelConst 10]), ("Tc", [modelConst 10])]

/-- Legacy artifact shape (b): a bare mapping from property name directly to
a single fitted model — in Python this is itself a dict, so `load_model`
sends it through the isinstance-dict branch. -/
def bareMapping : List (String × PyVal) :=
  [("Tg", PyVal.pymodel (modelConst 10)), ("FFV", PyVal.pymodel (modelConst 10)),
   ("Tc", PyVal.pymodel (modelConst 10)),
   ("Density", PyVal.pymodel (modelConst 10)),
   ("Rg", PyVal.pymodel (modelConst 10))]

/-- A molecule with two branching heteroatoms and no carbon at all, making
`backbone_carbons` negative. -/
def molHetero : Mol := ⟨[⟨"O", 3, false, 0⟩, ⟨"N", 3, false, 1⟩], [], 0, 17⟩


/-- Every arm of the per-property loop keys its entry by the queried
property name. -/
theorem predictProp_fst (sc : List (String × Scaler))
    (ms : List (String × List Model)) (f : List ℝ) (p : String) :
    (predictProp sc ms f p).1 = p := by
  unfold predictProp
  repeat first
  | rfl
  | split

/-- C8: the branching feature equals the side-chain count divided by the
max-with-1-guarded backbone count: the denominator is at least 1 (so the
division is by a nonzero value and exact), the numerator is the count of
atoms of graph degree above 2, and a non-positive backbone count yields
exactly the side-chain count divided by 1. -/
theorem c8_branching_guard (m : Mol) :
    (1 : ℤ) ≤ max (chemistry_features_of_mol m).backbone_carbons 1
    ∧ (chemistry_features_of_mol m).branching_frac
        * ((max (chemistry_features_of_mol m).backbone_carbons 1 : ℤ) : ℚ)
        = ((chemistry_features_of_mol m).num_side_chains : ℚ)
    ∧ (chemistry_features_of_mol m).num_side_chains
        = m.atoms.countP (fun a => 2 < a.degree)
    ∧ ((chemistry_features_of_mol m).backbone_carbons ≤ 0 →
        (chemistry_features_of_mol m).branching_frac
          = ((chemistry_features_of_mol m).num_side_chains : ℚ)) := by
  have hden : (0 : ℤ) < max (chemistry_features_of_mol m).backbone_carbons 1 :=
    lt_of_lt_of_le zero_lt_one (le_max_right _ _)
  have hdenQ : ((max (chemistry_features_of_mol m).backbone_carbons 1 : ℤ) : ℚ) ≠ 0 := by
    exact_mod_cast hden.ne'
  have hfrac : (chemistry_features_of_mol m).branching_frac
      = ((chemistry_features_of_mol m).num_side_chains : ℚ)
        / ((max (chemistry_features_of_mol m).backbone_carbons 1 : ℤ) : ℚ) := rfl
  refine ⟨le_max_right _ _, ?_, rfl, ?_⟩
  · rw [hfrac, div_mul_cancel₀ _ hdenQ]
  · intro hbc
    have hmax : max (chemistry_features_of_mol m).backbone_carbons 1 = 1 :=
      max_eq_right (hbc.trans zero_le_one)
    rw [hfrac, hmax]
    norm_num

/-- Witness for C8 at a concrete molecule whose backbone count is negative:
the guarded division returns the bare side-chain count. -/
theorem c8_branching_guard_witness :
    (chemistry_features_of_mol molHetero).backbone_carbons ≤ 0
    ∧ (chemistry_features_of_mol molHetero).branching_frac
      = ((chemistry_features_of_mol molHetero).num_side_chains : ℚ) := by
  have h : (chemistry_features_of_mol molHetero).backbone_carbons ≤ 0 := by decide
  exact ⟨h, (c8_branching_guard molHetero).2.2.2 h⟩

/-- C9: structural counts are computed from the literal input text alone:
on `CCO` they are smiles_length 3, carbon_count 2, nitrogen_count 0,
oxygen_count 1 (all other counts 0); and two textual representations of
the same molecule — ethanol written `CCO` versus `C(O)C` — yield different
structural counts. -/
theorem c9_raw_counts :
    extract_simple_features "CCO" = ⟨3, 2, 0, 1, 0, 0, 0, 0, 0, 0⟩
    ∧ extract_simple_features "C(O)C" ≠ extract_simple_features "CCO" := by
  constructor
  · decide
  · decide


/-- A SMILES accepted by `validate_smiles` has a parsed molecule. -/
theorem validate_parse (parse : String → Option Mol) (s : String)
    (hv : validate_smiles parse s = true) : ∃ m, parse s = some m := by
  unfold validate_smiles at hv
  by_cases h : s = ""
  · rw [if_pos h] at hv
    exact absurd hv (by decide)
  · rw [if_neg h] at hv
    exact Option.isSome_iff_exists.mp hv

/-- On a validated SMILES with a loaded model, `predict` runs the
per-property loop over the extracted feature vector. -/
theorem predict_model_path (parse : String → Option Mol) (st : PredictorState)
    (s : String) (ms : List (String × List Model))
    (hv : validate_smiles parse s = true) (hm : st.models = some ms) :
    ∃ features, extract_features parse s = some features
      ∧ predict parse st s = propertyNames.map (predictProp st.scalers ms features) := by
  obtain ⟨m, hparse⟩ := validate_parse parse s hv
  refine ⟨featureVector (extract_simple_features s) (chemistry_features_of_mol m),
    ?_, ?_⟩
  · unfold extract_features extract_all_features extract_chemistry_features
    rw [hparse]
    rfl
  · unfold predict
    rw [if_pos hv]
    unfold extract_features extract_all_features extract_chemistry_features
    rw [hparse, hm]
    rfl

/-- On a validated SMILES with no loaded model, `predict` degrades to the
placeholder result. -/
theorem predict_unloaded (parse : String → Option Mol) (st : PredictorState)
    (s : String) (hv : validate_smiles parse s = true) (hm : st.models = none) :
    predict parse st s = placeholderPredictions := by
  obtain ⟨m, hparse⟩ := validate_parse parse s hv
  unfold predict
  rw [if_pos hv]
  unfold extract_features extract_all_features extract_chemistry_features
  rw [hparse, hm]
  rfl

/-- On a rejected SMILES, `predict` returns the placeholder result. -/
theorem predict_invalid (parse : String → Option Mol) (st : PredictorState)
    (s : String) (hv : validate_smiles parse s = false) :
    predict parse st s = placeholderPredictions := by
  unfold predict
  rw [if_neg]
  rw [hv]
  exact Bool.false_ne_true

/-- C2: the empty string is always rejected, a string the parser rejects is
rejected, and any rejected SMILES short-circuits `predict` to the full
5-property placeholder (value 0, confidence 0) independently of the loaded
models — no per-property inference is attempted. -/
theorem c2_invalid_short_circuit :
    (∀ parse : String → Option Mol, validate_smiles parse "" = false)
    ∧ (∀ (parse : String → Option Mol) (s : String),
        parse s = none → validate_smiles parse s = false)
    ∧ (∀ (parse : String → Option Mol) (st : PredictorState) (s : String),
        validate_smiles parse s = false →
          predict parse st s = placeholderPredictions)
    ∧ (∀ (parse : String → Option Mol) (st st2 : PredictorState) (s : String),
        validate_smiles parse s = false →
          predict parse st s = predict parse st2 s) := by
  refine ⟨fun parse => rfl, ?_, fun parse st s hv => predict_invalid parse st s hv, ?_⟩
  · intro parse s hp
    unfold validate_smiles
    by_cases h : s = ""
    · rw [if_pos h]
    · rw [if_neg h, hp]
      rfl
  · intro parse st st2 s hv
    rw [predict_invalid parse st s hv, predict_invalid parse st2 s hv]

/-- Witness for C2: the unparseable `XYZ123` is rejected and yields the
placeholder result even with a full artifact loaded. -/
theorem c2_invalid_short_circuit_witness :
    validate_smiles parseNone "XYZ123" = false
    ∧ predict parseNone stLoaded "XYZ123" = placeholderPredictions := by
  have hv : validate_smiles parseNone "XYZ123" = false :=
    c2_invalid_short_circuit.2.1 parseNone "XYZ123" rfl
  exact ⟨hv, c2_invalid_short_circuit.2.2.1 parseNone stLoaded "XYZ123" hv⟩

/-- C3: loading the legacy bare-mapping artifact shape (property name to a
single fitted model) through `load_model` does not adapt it as a size-1
ensemble with identity scaling: because a bare mapping is itself a dict, the
dict branch runs, finds no models or scalers key, stores empty dicts, and a
subsequent `predict` on a valid SMILES returns all-zero, zero-confidence
entries instead of model-backed predictions. -/
theorem c3_bare_mapping_degrades :
    (load_model bareMapping).models = some []
    ∧ (load_model bareMapping).scalers = []
    ∧ predict parseOk (load_model bareMapping) "CC"
      = [("Tg", ⟨0, 0⟩), ("FFV", ⟨0, 0⟩), ("Tc", ⟨0, 0⟩),
         ("Density", ⟨0, 0⟩), ("Rg", ⟨0, 0⟩)] := by
  refine ⟨rfl, rfl, ?_⟩
  rfl


/-- Mapping the per-property loop over a list of names keeps the names. -/
theorem map_predictProp_fst (sc : List (String × Scaler))
    (ms : List (String × List Model)) (f : List ℝ) (l : List String) :
    (l.map (predictProp sc ms f)).map Prod.fst = l := by
  induction l with
  | nil => rfl
  | cons a t ih => simp [predictProp_fst, ih]

/-- C1: `predict` is total and well-formed on every input: it always
returns one entry per canonical property (its keys lowercase to the five
canonical names, in order), and the whole-call failure modes — rejected
SMILES or an unloaded model — resolve to the explicit zero-confidence
placeholder result. -/
theorem c1_total_wellformed (parse : String → Option Mol)
    (st : PredictorState) (s : String) :
    ((predict parse st s).map (fun e => lowerStr e.1)
        = ["tg", "ffv", "tc", "density", "rg"])
    ∧ ((validate_smiles parse s = false ∨ st.models = none) →
        predict parse st s = placeholderPredictions) := by
  by_cases hv : validate_smiles parse s = true
  · cases hm : st.models with
    | none =>
      have hp := predict_unloaded parse st s hv hm
      refine ⟨?_, fun _ => hp⟩
      rw [hp]
      decide
    | some ms =>
      obtain ⟨f, hf, hp⟩ := predict_model_path parse st s ms hv hm
      constructor
      · rw [hp, List.map_map]
        have hmap : ∀ l : List String,
            (l.map (predictProp st.scalers ms f)).map (fun e => lowerStr e.1)
              = l.map lowerStr := by
          intro l
          induction l with
          | nil => rfl
          | cons a t ih => simp [predictProp_fst, ih]
        rw [← List.map_map, hmap]
        decide
      · rintro (h | h)
        · rw [h] at hv
          exact absurd hv (by decide)
        · exact absurd h (by simp)
  · have hv2 : validate_smiles parse s = false := by
      cases hb : validate_smiles parse s
      · rfl
      · exact absurd hb hv
    have hp := predict_invalid parse st s hv2
    refine ⟨?_, fun _ => hp⟩
    rw [hp]
    decide

/-- Witness for C1 with an unloaded model on a parsable SMILES: five
canonical keys and the zero-confidence placeholder. -/
theorem c1_total_wellformed_witness :
    ((predict parseOk stUnloaded "CC").map (fun e => lowerStr e.1)
        = ["tg", "ffv", "tc", "density", "rg"])
    ∧ predict parseOk stUnloaded "CC" = placeholderPredictions :=
  ⟨(c1_total_wellformed parseOk stUnloaded "CC").1,
   (c1_total_wellformed parseOk stUnloaded "CC").2 (Or.inr rfl)⟩

/-- C4 fails as stated: on a valid SMILES with the model loaded, the keys
of the returned mapping are the capitalized training names, not the five
canonical lowercase keys; the lowercase key tg does not occur. -/
theorem c4_counterexample :
    validate_smiles parseOk "CC" = true
    ∧ (predict parseOk stLoaded "CC").map Prod.fst
      = ["Tg", "FFV", "Tc", "Density", "Rg"]
    ∧ (predict parseOk stLoaded "CC").map Prod.fst
      ≠ ["tg", "ffv", "tc", "density", "rg"] := by
  have hkeys : (predict parseOk stLoaded "CC").map Prod.fst
      = ["Tg", "FFV", "Tc", "Density", "Rg"] := by
    obtain ⟨f, hf, hp⟩ := predict_model_path parseOk stLoaded "CC" allModels rfl rfl
    rw [hp, map_predictProp_fst]
    rfl
  refine ⟨rfl, hkeys, ?_⟩
  rw [hkeys]
  decide

/-- C4 amended: on every valid SMILES the result covers exactly the five
canonical properties with every confidence in the unit interval, but the
key casing depends on the path: lowercase on the unloaded-model placeholder
path, the capitalized training names on the loaded-model path. -/
theorem c4_amended_keys (parse : String → Option Mol) (st : PredictorState)
    (s : String) (hv : validate_smiles parse s = true) :
    ((predict parse st s).map (fun e => lowerStr e.1)
        = ["tg", "ffv", "tc", "density", "rg"])
    ∧ (∀ e ∈ predict parse st s, 0 ≤ e.2.confidence ∧ e.2.confidence ≤ 1)
    ∧ (st.models = none →
        (predict parse st s).map Prod.fst = ["tg", "ffv", "tc", "density", "rg"])
    ∧ (∀ ms, st.models = some ms →
        (predict parse st s).map Prod.fst = ["Tg", "FFV", "Tc", "Density", "Rg"]) := by
  refine ⟨(c1_total_wellformed parse st s).1, ?_, ?_, ?_⟩
  · intro e he
    cases hm : st.models with
    | none =>
      rw [predict_unloaded parse st s hv hm] at he
      fin_cases he <;> exact ⟨le_refl 0, zero_le_one⟩
    | some ms =>
      obtain ⟨f, hf, hp⟩ := predict_model_path parse st s ms hv hm
      rw [hp] at he
      obtain ⟨p, hpmem, hpe⟩ := List.mem_map.mp he
      rw [← hpe]
      unfold predictProp
      repeat first
      | exact ⟨le_min (le_max_right _ _) zero_le_one, min_le_right _ _⟩
      | exact ⟨le_refl 0, zero_le_one⟩
      | split
  · intro hm
    rw [predict_unloaded parse st s hv hm]
    decide
  · intro ms hm
    obtain ⟨f, hf, hp⟩ := predict_model_path parse st s ms hv hm
    rw [hp, map_predictProp_fst]
    rfl

/-- Witness for C4 amended at a loaded state on a valid SMILES: the keys
are the capitalized names. -/
theorem c4_amended_keys_witness :
    (predict parseOk stLoaded "CC").map Prod.fst
      = ["Tg", "FFV", "Tc", "Density", "Rg"] :=
  (c4_amended_keys parseOk stLoaded "CC" rfl).2.2.2 allModels rfl


/-- On the success path (both dict entries present, scaler and every
ensemble member succeed), the per-property loop returns the mean with the
Tg-only transform and the clamped dispersion confidence. -/
theorem predictProp_success (scalers : List (String × Scaler))
    (models : List (String × List Model)) (features : List ℝ) (p : String)
    (ems : List Model) (sc : Scaler) (fs preds : List ℝ)
    (hm : dictLookup p models = some ems)
    (hs : dictLookup p scalers = some sc)
    (hf : sc features = some fs)
    (he : evalModels ems fs = some preds) :
    predictProp scalers models features p
      = (p, ⟨(if p = "Tg" then (9 / 5) * listMean preds + 45 else listMean preds),
             min (max (1 / (1 + listStd preds)) 0) 1⟩) := by
  unfold predictProp
  rw [hm, hs]
  dsimp only
  rw [hf]
  dsimp only
  rw [he]

/-- A raising scaler is caught and yields the zero entry for the property. -/
theorem predictProp_scaler_fail (scalers : List (String × Scaler))
    (models : List (String × List Model)) (features : List ℝ) (p : String)
    (ems : List Model) (sc : Scaler)
    (hm : dictLookup p models = some ems)
    (hs : dictLookup p scalers = some sc)
    (hf : sc features = none) :
    predictProp scalers models features p = (p, ⟨0, 0⟩) := by
  unfold predictProp
  rw [hm, hs]
  dsimp only
  rw [hf]

/-- A raising ensemble member is caught and yields the zero entry for the
property. -/
theorem predictProp_member_fail (scalers : List (String × Scaler))
    (models : List (String × List Model)) (features : List ℝ) (p : String)
    (ems : List Model) (sc : Scaler) (fs : List ℝ)
    (hm : dictLookup p models = some ems)
    (hs : dictLookup p scalers = some sc)
    (hf : sc features = some fs)
    (he : evalModels ems fs = none) :
    predictProp scalers models features p = (p, ⟨0, 0⟩) := by
  unfold predictProp
  rw [hm, hs]
  dsimp only
  rw [hf]
  dsimp only
  rw [he]

/-- C5: on the per-property success path, the affine post-transform
1.8 * value + 45 is applied exactly once, after ensemble averaging, and only
when the property is Tg; every other property reports the untransformed
ensemble average. -/
theorem c5_tg_transform (scalers : List (String × Scaler))
    (models : List (String × List Model)) (features : List ℝ) (p : String)
    (ems : List Model) (sc : Scaler) (fs preds : List ℝ)
    (hm : dictLookup p models = some ems)
    (hs : dictLookup p scalers = some sc)
    (hf : sc features = some fs)
    (he : evalModels ems fs = some preds) :
    (p = "Tg" →
      (predictProp scalers models features p).2.value
        = 1.8 * listMean preds + 45)
    ∧ (p ≠ "Tg" →
      (predictProp scalers models features p).2.value = listMean preds) := by
  rw [predictProp_success scalers models features p ems sc fs preds hm hs hf he]
  constructor
  · intro hp
    rw [if_pos hp]
    norm_num
  · intro hp
    rw [if_neg hp]

/-- Witness for C5: a Tg ensemble averaging 10 surfaces as 63, while a Tc
ensemble averaging 10 surfaces as 10. -/
theorem c5_tg_transform_witness :
    (predictProp allScalers allModels [0] "Tg").2.value = 63
    ∧ (predictProp allScalers allModels [0] "Tc").2.value = 10 := by
  have h1 := (c5_tg_transform allScalers allModels [0] "Tg" [modelConst 10]
    scalerId [0] [10] rfl rfl rfl rfl).1 rfl
  have h2 := (c5_tg_transform allScalers allModels [0] "Tc" [modelConst 10]
    scalerId [0] [10] rfl rfl rfl rfl).2 (by decide)
  have hmean : listMean [10] = (10 : ℝ) := by
    norm_num [listMean]
  rw [h1, h2, hmean]
  norm_num

/-- C6: on the per-property success path the point estimate handed to the
documented post-transform is the arithmetic mean of the ensemble outputs
(so every property other than Tg reports the mean itself), and the reported
confidence is 1 / (1 + stddev(outputs)) clamped to the unit interval. -/
theorem c6_mean_confidence (scalers : List (String × Scaler))
    (models : List (String × List Model)) (features : List ℝ) (p : String)
    (ems : List Model) (sc : Scaler) (fs preds : List ℝ)
    (hm : dictLookup p models = some ems)
    (hs : dictLookup p scalers = some sc)
    (hf : sc features = some fs)
    (he : evalModels ems fs = some preds) :
    (predictProp scalers models features p).2.value
      = (if p = "Tg" then 1.8 * listMean preds + 45 else listMean preds)
    ∧ (predictProp scalers models features p).2.confidence
      = min (max (1 / (1 + listStd preds)) 0) 1 := by
  rw [predictProp_success scalers models features p ems sc fs preds hm hs hf he]
  refine ⟨?_, rfl⟩
  by_cases hp : p = "Tg"
  · rw [if_pos hp, if_pos hp]
    norm_num
  · rw [if_neg hp, if_neg hp]

/-- Witness for C6 on the spec case: a three-member ensemble with outputs
10, 12 and 11 yields point estimate 11 and confidence exactly
1 / (1 + stddev), the clamp being inert. -/
theorem c6_mean_confidence_witness :
    (predictProp scalersFFV modelsFFV [0] "FFV").2.value = 11
    ∧ (predictProp scalersFFV modelsFFV [0] "FFV").2.confidence
      = 1 / (1 + listStd [10, 12, 11]) := by
  have h := c6_mean_confidence scalersFFV modelsFFV [0] "FFV" ensembleFFV
    scalerId [0] [10, 12, 11] rfl rfl rfl rfl
  constructor
  · rw [h.1, if_neg (by decide : ¬("FFV" : String) = "Tg")]
    norm_num [listMean]
  · rw [h.2]
    have hs0 : 0 ≤ listStd [10, 12, 11] := Real.sqrt_nonneg _
    have hpos : (0 : ℝ) < 1 + listStd [10, 12, 11] := by linarith
    have hc0 : (0 : ℝ) ≤ 1 / (1 + listStd [10, 12, 11]) := by positivity
    have hc1 : 1 / (1 + listStd [10, 12, 11]) ≤ 1 := by
      rw [div_le_one hpos]
      linarith
    rw [max_eq_left hc0, min_eq_left hc1]

/-- C7: per-property failures are isolated: when the scaler raises, that
property alone gets the zero entry; when some ensemble member raises during
evaluation, likewise; the entry of a property depends only on that
property entries in the models and scalers dicts, so a failure injected in
another property leaves it unchanged; and the batch always completes with
all five entries. -/
theorem c7_per_property_isolation (scalers scalers2 : List (String × Scaler))
    (models models2 : List (String × List Model)) (features : List ℝ)
    (p : String) :
    (∀ ems sc, dictLookup p models = some ems →
      dictLookup p scalers = some sc → sc features = none →
      predictProp scalers models features p = (p, ⟨0, 0⟩))
    ∧ (∀ ems sc fs, dictLookup p models = some ems →
      dictLookup p scalers = some sc → sc features = some fs →
      evalModels ems fs = none →
      predictProp scalers models features p = (p, ⟨0, 0⟩))
    ∧ (dictLookup p models = dictLookup p models2 →
      dictLookup p scalers = dictLookup p scalers2 →
      predictProp scalers models features p
        = predictProp scalers2 models2 features p)
    ∧ (∀ (parse : String → Option Mol) (st : PredictorState) (s : String),
      (predict parse st s).length = 5) := by
  refine ⟨?_, ?_, ?_, ?_⟩
  · intro ems sc hm hs hf
    exact predictProp_scaler_fail scalers models features p ems sc hm hs hf
  · intro ems sc fs hm hs hf he
    exact predictProp_member_fail scalers models features p ems sc fs hm hs hf he
  · intro h1 h2
    unfold predictProp
    rw [h1, h2]
  · intro parse st s
    unfold predict
    by_cases hv : validate_smiles parse s = true
    · rw [if_pos hv]
      cases hx : extract_features parse s with
      | none => rfl
      | some f =>
        cases hm : st.models with
        | none => rfl
        | some ms => simp [propertyNames]
    · rw [if_neg hv]
      rfl

/-- Witness for C7: with a raising Tg scaler installed, the Tg entry is the
zero entry while the Tc entry is exactly what it is under the healthy
scaler dict. -/
theorem c7_per_property_isolation_witness :
    predictProp scalersFailTg modelsTgTc [0] "Tg" = ("Tg", ⟨0, 0⟩)
    ∧ predictProp scalersFailTg modelsTgTc [0] "Tc"
      = predictProp allScalers modelsTgTc [0] "Tc" := by
  constructor
  · exact (c7_per_property_isolation scalersFailTg allScalers modelsTgTc
      modelsTgTc [0] "Tg").1 [modelConst 10] scalerFail rfl rfl rfl
  · exact (c7_per_property_isolation scalersFailTg allScalers modelsTgTc
      modelsTgTc [0] "Tc").2.2.1 rfl rfl

/-- C10: on the per-property success path the reported confidence is
strictly positive — the ensemble standard deviation is nonnegative, so
1 / (1 + stddev) lies in the half-open unit interval and the clamp keeps it
positive — while every placeholder entry carries confidence exactly 0. -/
theorem c10_success_confidence_pos :
    (∀ (scalers : List (String × Scaler))
      (models : List (String × List Model)) (features : List ℝ) (p : String)
      (ems : List Model) (sc : Scaler) (fs preds : List ℝ),
      dictLookup p models = some ems →
      dictLookup p scalers = some sc →
      sc features = some fs →
      evalModels ems fs = some preds →
      preds ≠ [] →
      0 < (predictProp scalers models features p).2.confidence)
    ∧ (∀ e ∈ placeholderPredictions, e.2.confidence = 0) := by
  constructor
  · intro scalers models features p ems sc fs preds hm hs hf he hne
    rw [predictProp_success scalers models features p ems sc fs preds hm hs hf he]
    show 0 < min (max (1 / (1 + listStd preds)) 0) 1
    have hs0 : 0 ≤ listStd preds := Real.sqrt_nonneg _
    have hpos : (0 : ℝ) < 1 / (1 + listStd preds) := by positivity
    exact lt_min (lt_of_lt_of_le hpos (le_max_left _ _)) one_pos
  · intro e he
    fin_cases he <;> rfl

/-- Witness for C10: the confidence of the successful FFV prediction on the
three-member ensemble is strictly positive. -/
theorem c10_success_confidence_pos_witness :
    0 < (predictProp scalersFFV modelsFFV [0] "FFV").2.confidence :=
  c10_success_confidence_pos.1 scalersFFV modelsFFV [0] "FFV" ensembleFFV
    scalerId [0] [10, 12, 11] rfl rfl rfl rfl (by simp)

end
